import Mathlib

/-!
Verification of the download-orchestration core of `src/client/src/pages/home.tsx`.

The component's data model and operations are shallowly embedded:

* `Platform`, `DownloadType`, `DownloadState` mirror the TypeScript types
  (`type Platform`, `type DownloadType`, `interface DownloadState`).
* `validateInput` mirrors the `validateInput` closure (lines 48-77): it returns
  `none` when validation passes, and `some t` with the toast `t` that the
  source emits when validation fails.
* `addConsoleLine` mirrors lines 37-39 (`prev.slice(-10)` followed by pushing
  the freshly timestamped line).
* `resolveFilename` mirrors lines 113-122 (disposition-header extraction via
  the regex `filename="?([^";\n]+)"?`, fallback synthesis from platform, mode
  and `Date.now()`, and extension defaulting).
* `handleDownload` mirrors lines 79-164: it consumes an abstract `Response`
  (the resolved value of `fetch`) and returns the final component state
  together with the ordered list of every `DownloadState` passed to
  `setDownloadState` during the run.
* `resetState` mirrors lines 166-170.

JavaScript strings are modelled as Lean `String`s (`includes` becomes substring
search over the character list, `toUpperCase`/template literals become explicit
concatenation, number-to-string rendering becomes decimal digit rendering).
Wall-clock readings (`new Date().toLocaleTimeString()` and `Date.now()`) are
inputs of the model, supplied by an `Env`.
-/

/-- Mirrors `type Platform = "youtube" | "tiktok"` (line 13). -/
inductive Platform where
  | youtube
  | tiktok
deriving DecidableEq, Repr

/-- Mirrors `type DownloadType = "video" | "audio" | "search"` (line 14). -/
inductive DownloadType where
  | video
  | audio
  | search
deriving DecidableEq, Repr

/-- The five values of the `status` field of `DownloadState` (line 17). -/
inductive Status where
  | idle
  | processing
  | downloading
  | complete
  | error
deriving DecidableEq, Repr

/-- Mirrors `interface DownloadState` (lines 16-22).  Optional fields become
`Option String`, absent (`undefined`) being `none`. -/
structure DownloadState where
  status : Status
  progress : Nat
  message : String
  downloadUrl : Option String := none
  filename : Option String := none
deriving DecidableEq, Repr

/-- The payload of a `toast({...})` call: its `title` and `description`. -/
structure Toast where
  title : String
  description : String
deriving DecidableEq, Repr

/-- The string value of a `Platform` as it appears in the source. -/
def Platform.str : Platform → String
  | .youtube => "youtube"
  | .tiktok => "tiktok"

/-- Mirrors `platform.toUpperCase()` (line 83). -/
def Platform.upper : Platform → String
  | .youtube => "YOUTUBE"
  | .tiktok => "TIKTOK"

/-- The string value of a `DownloadType` as it appears in the source. -/
def DownloadType.str : DownloadType → String
  | .video => "video"
  | .audio => "audio"
  | .search => "search"

/-- Mirrors `downloadType.toUpperCase()` (line 83). -/
def DownloadType.upper : DownloadType → String
  | .video => "VIDEO"
  | .audio => "AUDIO"
  | .search => "SEARCH"

/-- Whether the pattern occurs as a contiguous sublist, scanning left to
right.  This is the character-level content of JavaScript
`String.prototype.includes`. -/
def isSubList (pat : List Char) : List Char → Bool
  | [] => pat.isEmpty
  | c :: rest => pat.isPrefixOf (c :: rest) || isSubList pat rest

/-- JavaScript `s.includes(pat)` on the model's strings. -/
def strIncludes (s pat : String) : Bool :=
  isSubList pat.data s.data

/-- ASCII lower-casing of one character (enough to compare the source's
upper-case log tokens against the spec's lower-case spelling). -/
def asciiLower (c : Char) : Char :=
  if 'A' ≤ c ∧ c ≤ 'Z' then Char.ofNat (c.toNat + 32) else c

/-- Case-insensitive "mentions": the pattern (given in lower case) occurs in
the ASCII-lower-cased text. -/
def mentions (s pat : String) : Bool :=
  isSubList pat.data (s.data.map asciiLower)

/-- ECMAScript white space / line terminator code points: the characters
removed by JavaScript `String.prototype.trim`. -/
def jsWhitespace (c : Char) : Bool :=
  c.toNat ∈ [0x9, 0xA, 0xB, 0xC, 0xD, 0x20, 0xA0, 0x1680,
    0x2000, 0x2001, 0x2002, 0x2003, 0x2004, 0x2005, 0x2006, 0x2007,
    0x2008, 0x2009, 0x200A, 0x2028, 0x2029, 0x202F, 0x205F, 0x3000, 0xFEFF]

/-- JavaScript `!s.trim()`: `s.trim()` is the empty string exactly when every
character of `s` is trimmable white space. -/
def trimIsEmpty (s : String) : Bool :=
  s.data.all jsWhitespace

/-- Mirrors `validateInput` (lines 48-77).  Returns `none` exactly when the source
function returns `true`; returns `some t` with the emitted toast when the
source returns `false`.  The source's `!inputValue.trim()` test is embedded
as `trimIsEmpty`. -/
def validateInput (platform : Platform) (downloadType : DownloadType)
    (inputValue : String) : Option Toast :=
  if trimIsEmpty inputValue then
    some ⟨"ERROR.EMPTY_INPUT",
      if downloadType = .search then "Please provide a username"
      else "Please provide a URL"⟩
  else if downloadType ≠ DownloadType.search then
    if platform = .youtube ∧ strIncludes inputValue "youtu" = false then
      some ⟨"ERROR.INVALID_URL", "Please provide a valid YouTube URL"⟩
    else if platform = .tiktok ∧ strIncludes inputValue "tiktok" = false then
      some ⟨"ERROR.INVALID_URL", "Please provide a valid TikTok URL"⟩
    else none
  else none

/-- Mirrors `addConsoleLine` (lines 37-39):
`setConsoleLines(prev => [...prev.slice(-10), "[<time>] <line>"])`.
`prev.slice(-10)` keeps the last (at most) 10 entries, i.e. drops
`prev.length - 10` entries from the front; `ts` is the wall-clock text
`new Date().toLocaleTimeString()`. -/
def addConsoleLine (ts line : String) (prev : List String) : List String :=
  prev.drop (prev.length - 10) ++ ["[" ++ ts ++ "] " ++ line]

/-- One character of the regex class `[^";\n]` in the disposition pattern
`filename="?([^";\n]+)"?` (line 117). -/
def fnTokenChar (c : Char) : Bool :=
  !(c == '"' || c == ';' || c == '\n')

/-- Attempt to match the regex `filename="?([^";\n]+)"?` at the head of `l`,
returning the capture group.  After the literal `filename=`, the greedy
optional quote is consumed when present; the capture needs at least one
character of `[^";\n]`.  When the quote was consumed but the capture is
empty, backtracking (quote not consumed) also fails, because the capture
would have to start at the excluded `"`. -/
def matchFilenameAt (l : List Char) : Option String :=
  if "filename=".data.isPrefixOf l then
    match l.drop 9 with
    | '"' :: rest =>
      if (rest.takeWhile fnTokenChar).isEmpty then none
      else some (String.mk (rest.takeWhile fnTokenChar))
    | _ =>
      if ((l.drop 9).takeWhile fnTokenChar).isEmpty then none
      else some (String.mk ((l.drop 9).takeWhile fnTokenChar))
  else none

/-- Scan left to right for the first position where the disposition pattern
matches, as `String.prototype.match` with an unanchored regex does. -/
def scanFilename : List Char → Option String
  | [] => none
  | c :: rest =>
    match matchFilenameAt (c :: rest) with
    | some s => some s
    | none => scanFilename rest

/-- Mirrors `contentDisposition.match(/filename="?([^";\n]+)"?/)` (line 117), giving
the capture group of the first match when there is one. -/
def extractFilename (header : String) : Option String :=
  scanFilename header.data

/-- The fallback filename `` `${platform}_${downloadType}_${Date.now()}` ``
(line 114); `now` is the value of `Date.now()`. -/
def synthName (platform : Platform) (downloadType : DownloadType)
    (now : Nat) : String :=
  platform.str ++ "_" ++ downloadType.str ++ "_" ++ Nat.repr now

/-- Lines 113-119: the filename before extension defaulting.  `disposition`
is `response.headers.get("Content-Disposition")` (`none` = header absent);
the source's truthiness test `if (contentDisposition)` makes an empty header
value fall back to synthesis as well. -/
def resolveBase (disposition : Option String) (platform : Platform)
    (downloadType : DownloadType) (now : Nat) : String :=
  match disposition with
  | none => synthName platform downloadType now
  | some h =>
    if h = "" then synthName platform downloadType now
    else
      match extractFilename h with
      | some f => f
      | none => synthName platform downloadType now

/-- Lines 113-122: filename resolution including extension defaulting
(`.mp3` when `downloadType === "audio"`, else `.mp4`, appended exactly when
the name contains no `"."`). -/
def resolveFilename (disposition : Option String) (platform : Platform)
    (downloadType : DownloadType) (now : Nat) : String :=
  let base := resolveBase disposition platform downloadType now
  let ext := if downloadType = DownloadType.audio then ".mp3" else ".mp4"
  if strIncludes base "." then base else base ++ ext

/-- The observable outcome of `await response.json()` on a non-ok response
(lines 101-106): `json m` when the body parses and the `message` property
read succeeds, `m` being its string value (`none` when absent or falsy in a
way other than the empty string); `notJson` when parsing rejects (or the
parsed value is `null`, so that the property read itself throws inside the
same `try`). -/
inductive ErrorBody where
  | json (message : Option String)
  | notJson
deriving DecidableEq, Repr

/-- The resolved value of `fetch` (line 93) together with the observations
the handler makes of it: `ok`, `status`, the error-body parse outcome, the
`Content-Disposition` header, and the byte size of `await response.blob()`. -/
structure Response where
  ok : Bool
  status : Nat
  errorBody : ErrorBody
  contentDisposition : Option String
  blobSize : Nat
deriving DecidableEq, Repr

/-- Lines 100-106: the `errorMessage` thrown for a non-ok response.
`error.message || errorMessage` keeps the parsed message only when truthy
(the empty string is falsy); a failed parse synthesizes
`` `Server error: ${response.status}` ``. -/
def jsErrorMessage (r : Response) : String :=
  match r.errorBody with
  | .json (some s) => if s = "" then "Download failed" else s
  | .json none => "Download failed"
  | .notJson => "Server error: " ++ Nat.repr r.status

/-- Mirrors `(blob.size / 1024 / 1024).toFixed(2)` (line 133), modelled as exact
round-half-up to two decimals.  No claim depends on this text. -/
def mbText (size : Nat) : String :=
  let hundredths := (size * 100 + 524288) / 1048576
  Nat.repr (hundredths / 100) ++ "." ++
    (if hundredths % 100 < 10 then "0" else "") ++ Nat.repr (hundredths % 100)

/-- Mirrors `` `${inputValue.slice(0, 50)}${inputValue.length > 50 ? '...' : ''}` ``
(line 84). -/
def truncEcho (v : String) : String :=
  String.mk (v.data.take 50) ++ (if 50 < v.data.length then "..." else "")

/-- The component state the handlers read and write: the four `useState`
hooks `platform`, `downloadType`, `inputValue`, `downloadState` plus
`consoleLines` (lines 25-33). -/
structure AppState where
  platform : Platform
  downloadType : DownloadType
  inputValue : String
  downloadState : DownloadState
  consoleLines : List String
deriving DecidableEq, Repr

/-- The ambient wall clock of one `handleDownload` run: `clock k` is
`new Date().toLocaleTimeString()` at the `k`-th console append of the run,
and `now` is `Date.now()` at line 114. -/
structure Env where
  clock : Nat → String
  now : Nat

/-- The observable outcome of one `handleDownload` run: the final component
state, the ordered list of every `DownloadState` passed to
`setDownloadState`, and the toasts emitted. -/
structure RunResult where
  final : AppState
  trace : List DownloadState
  toasts : List Toast

/-- The initial `downloadState` (lines 28-32); also the state installed by
`resetState`. -/
def initDownloadState : DownloadState :=
  { status := .idle, progress := 0, message := "" }

/-- Mirrors `handleDownload` (lines 79-164) for a run in which `fetch` resolves to
`r` and body consumption succeeds.  Every `setDownloadState` argument is
recorded in `trace` in order; console appends go through `addConsoleLine`
with the run-local wall clock `env.clock`. -/
def handleDownload (st : AppState) (r : Response) (env : Env) : RunResult :=
  match validateInput st.platform st.downloadType st.inputValue with
  | some t => ⟨st, [], [t]⟩
  | none =>
    let s1 : DownloadState :=
      { status := .processing, progress := 0, message := "INITIALIZING_CONNECTION..." }
    let l1 := addConsoleLine (env.clock 0)
      ("> INIT " ++ st.platform.upper ++ " " ++ st.downloadType.upper ++ " PROTOCOL")
      st.consoleLines
    let l2 := addConsoleLine (env.clock 1) ("> TARGET: " ++ truncEcho st.inputValue) l1
    let l3 := addConsoleLine (env.clock 2) "> CONNECTING TO API ENDPOINT..." l2
    let s2 : DownloadState :=
      { status := .processing, progress := 20, message := "ESTABLISHING_SECURE_CONNECTION..." }
    if r.ok = false then
      let msg := jsErrorMessage r
      let l4 := addConsoleLine (env.clock 3) ("> ERROR: " ++ msg) l3
      let sE : DownloadState := { status := .error, progress := 0, message := "ERROR: " ++ msg }
      ⟨{ st with downloadState := sE, consoleLines := l4 }, [s1, s2, sE],
        [⟨"ERROR.DOWNLOAD_FAILED",
          if msg = "" then "Failed to process download request" else msg⟩]⟩
    else
      let l4 := addConsoleLine (env.clock 3) "> CONNECTION_ESTABLISHED" l3
      let s3 : DownloadState :=
        { status := .downloading, progress := 50, message := "EXTRACTING_MEDIA_STREAM..." }
      let fname := resolveFilename r.contentDisposition st.platform st.downloadType env.now
      let l5 := addConsoleLine (env.clock 4) ("> DOWNLOADING: " ++ fname) l4
      let s4 : DownloadState :=
        { status := .downloading, progress := 70, message := "STREAMING_DATA..." }
      if r.blobSize < 1024 then
        let msg := "Downloaded file is too small - may be invalid"
        let l6 := addConsoleLine (env.clock 5) ("> ERROR: " ++ msg) l5
        let sE : DownloadState := { status := .error, progress := 0, message := "ERROR: " ++ msg }
        ⟨{ st with downloadState := sE, consoleLines := l6 }, [s1, s2, s3, s4, sE],
          [⟨"ERROR.DOWNLOAD_FAILED", msg⟩]⟩
      else
        let l6 := addConsoleLine (env.clock 5)
          ("> DOWNLOAD_COMPLETE: " ++ mbText r.blobSize ++ " MB") l5
        let s5 : DownloadState :=
          { status := .complete, progress := 100, message := "DOWNLOAD.COMPLETE",
            filename := some fname }
        let l7 := addConsoleLine (env.clock 6) ("> FILE_SAVED: " ++ fname) l6
        ⟨{ st with downloadState := s5, consoleLines := l7 }, [s1, s2, s3, s4, s5],
          [⟨"DOWNLOAD.SUCCESS", fname ++ " downloaded successfully"⟩]⟩

/-- Mirrors `resetState` (lines 166-170). -/
def resetState (st : AppState) : AppState :=
  { st with downloadState := initDownloadState, inputValue := "", consoleLines := [] }

/-- Replay a sequence of `(timestamp, text)` console appends from the empty
log. -/
def runAppends (ops : List (String × String)) : List String :=
  ops.foldl (fun acc op => addConsoleLine op.1 op.2 acc) []

/-- The full history of formatted entries a sequence of appends produces,
without the retention cap. -/
def allEntries (ops : List (String × String)) : List String :=
  ops.map (fun op => "[" ++ op.1 ++ "] " ++ op.2)

/-- The `DownloadState` invariant of the specification. -/
def stateInv (s : DownloadState) : Prop :=
  (s.status = .idle → s.progress = 0) ∧
  (s.status = .complete → s.filename ≠ none) ∧
  (s.status = .error → s.progress = 0)

example : validateInput .youtube .video "https://example.com" =
    some ⟨"ERROR.INVALID_URL", "Please provide a valid YouTube URL"⟩ := by decide

example : validateInput .youtube .video "https://youtu.be/x" = none := by decide

example : validateInput .tiktok .search "@badbunny" = none := by decide

example : validateInput .tiktok .search "   " =
    some ⟨"ERROR.EMPTY_INPUT", "Please provide a username"⟩ := by decide

example : addConsoleLine "a" "b" ["x"] = ["x", "[a] b"] := by decide

example :
    (handleDownload
      ⟨.youtube, .video, "https://youtu.be/x", initDownloadState, []⟩
      ⟨true, 200, .notJson, some "attachment; filename=\"clip.mp4\"", 2097152⟩
      ⟨fun _ => "12:00:00", 17⟩).final.downloadState =
    { status := .complete, progress := 100, message := "DOWNLOAD.COMPLETE",
      filename := some "clip.mp4" } := by decide

example :
    ((handleDownload
      ⟨.youtube, .video, "https://youtu.be/x", initDownloadState, []⟩
      ⟨true, 200, .notJson, some "attachment; filename=\"clip.mp4\"", 2097152⟩
      ⟨fun _ => "12:00:00", 17⟩).final.consoleLines.getLast?) =
    some "[12:00:00] > FILE_SAVED: clip.mp4" := by decide

example :
    ((handleDownload
      ⟨.youtube, .video, "https://youtu.be/x", initDownloadState, []⟩
      ⟨false, 500, .json (some "rate limited"), none, 0⟩
      ⟨fun _ => "12:00:00", 17⟩).final.downloadState) =
    { status := .error, progress := 0, message := "ERROR: rate limited" } := by decide

example :
    ((handleDownload
      ⟨.tiktok, .audio, "https://tiktok.com/v", initDownloadState, []⟩
      ⟨true, 200, .notJson, none, 500⟩
      ⟨fun _ => "12:00:00", 17⟩).final.downloadState) =
    { status := .error, progress := 0,
      message := "ERROR: Downloaded file is too small - may be invalid" } := by decide

example : resolveFilename none .tiktok .audio 123 = "tiktok_audio_123.mp3" := by decide

example : extractFilename "attachment; filename=song.mp3; size=2" = some "song.mp3" := by
  decide

example : mentions "[12:00:00] > FILE_SAVED: clip.mp4" "file_saved" = true := by decide

/-! ## Helper lemmas -/

theorem isSubList_iff (pat l : List Char) : isSubList pat l = true ↔ pat <:+: l := by
  induction l with
  | nil => simp [isSubList, List.isEmpty_iff, List.infix_nil]
  | cons c rest ih =>
    simp only [isSubList, Bool.or_eq_true, List.isPrefixOf_iff_prefix, ih,
      List.infix_cons_iff]

theorem strIncludes_iff (s pat : String) :
    strIncludes s pat = true ↔ pat.data <:+: s.data :=
  isSubList_iff pat.data s.data

theorem mentions_of_infix (s m pat : String) (h1 : m.data <:+: s.data)
    (h2 : isSubList pat.data (m.data.map asciiLower) = true) :
    mentions s pat = true := by
  rw [mentions, isSubList_iff]
  rw [isSubList_iff] at h2
  exact h2.trans (h1.map asciiLower)

theorem strIncludes_dot_iff (s : String) :
    strIncludes s "." = true ↔ '.' ∈ s.data := by
  have hd : (".").data = ['.'] := rfl
  rw [strIncludes_iff, hd]
  constructor
  · intro h
    exact h.subset (List.mem_singleton_self '.')
  · intro h
    obtain ⟨u, t, ht⟩ := List.append_of_mem h
    rw [ht]
    exact ⟨u, t, by simp⟩

theorem digitChar_ne_dot : ∀ n, n < 10 → Nat.digitChar n ≠ '.' := by decide

theorem toDigitsCore_ne_dot :
    ∀ (fuel n : Nat) (acc : List Char), (∀ c ∈ acc, c ≠ '.') →
      ∀ c ∈ Nat.toDigitsCore 10 fuel n acc, c ≠ '.' := by
  intro fuel
  induction fuel with
  | zero =>
    intro n acc hacc c hc
    exact hacc c (by simpa [Nat.toDigitsCore] using hc)
  | succ f ih =>
    intro n acc hacc c hc
    simp only [Nat.toDigitsCore] at hc
    have hd : ∀ x ∈ Nat.digitChar (n % 10) :: acc, x ≠ '.' := by
      intro x hx
      rcases List.mem_cons.mp hx with rfl | hx
      · exact digitChar_ne_dot _ (Nat.mod_lt _ (by decide))
      · exact hacc x hx
    by_cases h0 : n / 10 = 0
    · rw [if_pos h0] at hc
      exact hd c hc
    · rw [if_neg h0] at hc
      exact ih (n / 10) (Nat.digitChar (n % 10) :: acc) hd c hc

theorem repr_no_dot (n : Nat) : '.' ∉ (Nat.repr n).data := by
  intro hmem
  exact toDigitsCore_ne_dot (n + 1) n [] (by simp) '.' hmem rfl

theorem strIncludes_dot_eq_false {s : String} (h : '.' ∉ s.data) :
    strIncludes s "." = false := by
  cases hb : strIncludes s "."
  · rfl
  · exact absurd ((strIncludes_dot_iff s).mp hb) h

theorem synthName_no_dot (p : Platform) (d : DownloadType) (now : Nat) :
    '.' ∉ (synthName p d now).data := by
  rw [synthName]
  simp only [String.data_append, List.mem_append]
  rintro ((((hp | h1) | hd) | h2) | hr)
  · revert hp; cases p <;> decide
  · revert h1; decide
  · revert hd; cases d <;> decide
  · revert h2; decide
  · exact repr_no_dot now hr

theorem matchFilenameAt_ne_nil (l : List Char) (f : String)
    (h : matchFilenameAt l = some f) : f.data ≠ [] := by
  unfold matchFilenameAt at h
  split at h
  · split at h <;>
    · split at h
      · exact absurd h (by simp)
      · simp only [Option.some.injEq] at h
        subst h
        simp_all [List.isEmpty_iff]
  · simp at h

theorem scanFilename_ne_nil : ∀ (l : List Char) (f : String),
    scanFilename l = some f → f.data ≠ [] := by
  intro l
  induction l with
  | nil => intro f h; simp [scanFilename] at h
  | cons c rest ih =>
    intro f h
    rw [scanFilename] at h
    rcases hm : matchFilenameAt (c :: rest) with _ | g
    · rw [hm] at h; exact ih f h
    · rw [hm] at h
      injection h with h
      subst h
      exact matchFilenameAt_ne_nil _ _ hm

theorem synthName_ne_nil (p : Platform) (d : DownloadType) (now : Nat) :
    (synthName p d now).data ≠ [] := by
  intro h
  rw [synthName] at h
  simp only [String.data_append, List.append_eq_nil] at h
  rcases h with ⟨⟨⟨⟨hp, _⟩, _⟩, _⟩, _⟩
  revert hp; cases p <;> decide

theorem resolveBase_ne_nil (disp : Option String) (p : Platform)
    (d : DownloadType) (now : Nat) : (resolveBase disp p d now).data ≠ [] := by
  rcases disp with _ | h
  · simpa only [resolveBase] using synthName_ne_nil p d now
  · simp only [resolveBase]
    split
    · exact synthName_ne_nil p d now
    · rcases hm : extractFilename h with _ | f
      · exact synthName_ne_nil p d now
      · exact scanFilename_ne_nil h.data f hm

theorem resolveFilename_ne_empty (disp : Option String) (p : Platform)
    (d : DownloadType) (now : Nat) : resolveFilename disp p d now ≠ "" := by
  rw [resolveFilename]
  intro hcontra
  split at hcontra
  · exact resolveBase_ne_nil disp p d now (congrArg String.data hcontra)
  · have := congrArg String.data hcontra
    simp only [String.data_append] at this
    rcases List.append_eq_nil.mp this with ⟨hbase, _⟩
    exact resolveBase_ne_nil disp p d now hbase

theorem suffix_append_same {α : Type} {l₁ l₂ : List α} (l₃ : List α)
    (h : l₁ <:+ l₂) : l₁ ++ l₃ <:+ l₂ ++ l₃ := by
  obtain ⟨t, rfl⟩ := h
  exact ⟨t, by rw [List.append_assoc]⟩

theorem addConsoleLine_length_le (ts line : String) (prev : List String) :
    (addConsoleLine ts line prev).length ≤ 11 := by
  simp only [addConsoleLine, List.length_append, List.length_drop,
    List.length_singleton]
  omega

/-! ## Claim theorems -/

/-- C9: calling reset from any state yields exactly the state
`{status: idle, progress: 0, message: "", filename: undefined,
downloadUrl: undefined}`, an empty console log, and empty input text,
unconditionally. -/
theorem reset_unconditional (st : AppState) :
    (resetState st).downloadState =
      { status := .idle, progress := 0, message := "", downloadUrl := none,
        filename := none } ∧
    (resetState st).consoleLines = [] ∧
    (resetState st).inputValue = "" :=
  ⟨rfl, rfl, rfl⟩

/-- C6: for every selection whose input is empty or whitespace-only after
trimming, validation fails with `ERROR.EMPTY_INPUT` ("Please provide a
username" when the mode is `search`, else "Please provide a URL") and the
submission makes no state transition: `handleDownload` leaves the component
state unchanged and sets no `DownloadState`. -/
theorem emptyInput_noTransition (st : AppState) (r : Response) (env : Env)
    (h : trimIsEmpty st.inputValue = true) :
    validateInput st.platform st.downloadType st.inputValue =
      some ⟨"ERROR.EMPTY_INPUT",
        if st.downloadType = .search then "Please provide a username"
        else "Please provide a URL"⟩ ∧
    (handleDownload st r env).final = st ∧
    (handleDownload st r env).trace = [] := by
  have hv : validateInput st.platform st.downloadType st.inputValue =
      some ⟨"ERROR.EMPTY_INPUT",
        if st.downloadType = .search then "Please provide a username"
        else "Please provide a URL"⟩ := by
    rw [validateInput, if_pos h]
  refine ⟨hv, ?_, ?_⟩
  · unfold handleDownload
    rw [hv]
  · unfold handleDownload
    rw [hv]

/-- Closed witness for `emptyInput_noTransition` at a concrete whitespace-only
input. -/
theorem emptyInput_noTransition_witness :
    trimIsEmpty "   " = true ∧
    (handleDownload ⟨.tiktok, .search, "   ", initDownloadState, []⟩
      ⟨true, 200, .notJson, none, 2048⟩ ⟨fun _ => "12:00:00", 5⟩).trace = [] ∧
    validateInput .tiktok .search "   " =
      some ⟨"ERROR.EMPTY_INPUT", "Please provide a username"⟩ :=
  ⟨by decide,
   (emptyInput_noTransition ⟨.tiktok, .search, "   ", initDownloadState, []⟩
      ⟨true, 200, .notJson, none, 2048⟩ ⟨fun _ => "12:00:00", 5⟩ (by decide)).2.2,
   (emptyInput_noTransition ⟨.tiktok, .search, "   ", initDownloadState, []⟩
      ⟨true, 200, .notJson, none, 2048⟩ ⟨fun _ => "12:00:00", 5⟩ (by decide)).1⟩

/-- C7: with non-blank input, validation outside `search` mode succeeds
exactly when the untrimmed input contains the platform's substring
(`"youtu"` for `youtube`, `"tiktok"` for `tiktok`), failing with
`ERROR.INVALID_URL` otherwise; in `search` mode it succeeds regardless of
content. -/
theorem url_validation (p : Platform) (d : DownloadType) (v : String)
    (h : trimIsEmpty v = false) :
    (d ≠ .search →
      (validateInput p d v = none ↔
        ((p = .youtube ∧ strIncludes v "youtu" = true) ∨
         (p = .tiktok ∧ strIncludes v "tiktok" = true)))) ∧
    (d = .search → validateInput p d v = none) ∧
    (∀ t, validateInput p d v = some t → t.title = "ERROR.INVALID_URL") := by
  simp only [validateInput, h]
  cases p <;> cases d <;>
    cases hyt : strIncludes v "youtu" <;> cases htk : strIncludes v "tiktok" <;>
      simp_all

/-- Closed witness for `url_validation`: the claim's two examples. -/
theorem url_validation_witness :
    validateInput .tiktok .search "@badbunny" = none ∧
    validateInput .youtube .video "https://example.com" =
      some ⟨"ERROR.INVALID_URL", "Please provide a valid YouTube URL"⟩ :=
  ⟨(url_validation .tiktok .search "@badbunny" (by decide)).2.1 rfl,
   by decide⟩

/-- C1 counterexample: eleven appends starting from the empty log leave 11
retained entries, so the log does not hold at most 10 entries after every
sequence of appends (`prev.slice(-10)` keeps 10 entries and then one more is
pushed). -/
theorem consoleLog_cap_counterexample :
    ¬ ((runAppends (List.replicate 11 ("12:00:00", "line"))).length ≤ 10) := by
  decide

/-- C1 amended: for every sequence of append operations the `ConsoleLog`
holds at most 11 entries afterwards (10 retained by `slice(-10)` plus the
newly pushed one), and eviction is FIFO from the front: the retained log is
always a suffix of the full history of appended entries. -/
theorem consoleLog_cap_amended (ops : List (String × String)) :
    (runAppends ops).length ≤ 11 ∧ runAppends ops <:+ allEntries ops := by
  induction ops using List.reverseRecOn with
  | nil => exact ⟨by decide, by simp [runAppends, allEntries]⟩
  | append_singleton ops op ih =>
    constructor
    · rw [runAppends, List.foldl_append]
      exact addConsoleLine_length_le op.1 op.2 _
    · rw [runAppends, List.foldl_append, allEntries, List.map_append]
      have h1 : (List.foldl (fun acc op => addConsoleLine op.1 op.2 acc) [] ops).drop
          ((List.foldl (fun acc op => addConsoleLine op.1 op.2 acc) [] ops).length - 10)
          <:+ allEntries ops :=
        (List.drop_suffix _ _).trans ih.2
      exact suffix_append_same _ h1

/-- C8: filename resolution always returns a non-empty string; when no
disposition filename is supplied (header absent, empty, or matching nothing)
the synthesized `<platform>_<mode>_<epochMillis>` name gets `.mp3` appended
when the mode is `audio` and `.mp4` otherwise; and in general any resolved
base name containing no `"."` gets that extension appended. -/
theorem filename_resolution (disp : Option String) (p : Platform)
    (d : DownloadType) (now : Nat) :
    resolveFilename disp p d now ≠ "" ∧
    ((disp = none ∨ disp = some "" ∨
        (∃ h, disp = some h ∧ extractFilename h = none)) →
      resolveFilename disp p d now =
        synthName p d now ++ (if d = DownloadType.audio then ".mp3" else ".mp4")) ∧
    (strIncludes (resolveBase disp p d now) "." = false →
      resolveFilename disp p d now =
        resolveBase disp p d now ++
          (if d = DownloadType.audio then ".mp3" else ".mp4")) := by
  refine ⟨resolveFilename_ne_empty disp p d now, ?_, ?_⟩
  · intro hnone
    have hbase : resolveBase disp p d now = synthName p d now := by
      rcases hnone with rfl | rfl | ⟨h, rfl, hm⟩
      · rfl
      · simp [resolveBase]
      · by_cases hh : h = "" <;> simp [resolveBase, hm, hh]
    have hdot := strIncludes_dot_eq_false (synthName_no_dot p d now)
    simp [resolveFilename, hbase, hdot]
  · intro hfalse
    simp [resolveFilename, hfalse]

/-- Closed witness for `filename_resolution`: mode `audio` with no header
synthesizes a `.mp3` name. -/
theorem filename_resolution_witness :
    resolveFilename none .tiktok .audio 5 ≠ "" ∧
    resolveFilename none .tiktok .audio 5 = "tiktok_audio_5.mp3" :=
  ⟨(filename_resolution none .tiktok .audio 5).1,
   ((filename_resolution none .tiktok .audio 5).2.1 (Or.inl rfl)).trans (by decide)⟩

/-- C2: for every submission that passes validation, whose response is ok,
and whose body is at least 1024 bytes, the run sets the states
`processing(0) → processing(20) → downloading(50) → downloading(70) →
complete(100)` in that order (so `processing` precedes `downloading` and no
state is skipped), the final state is `complete` with `progress = 100` and
the resolved filename set, and the log's last entry mentions "file_saved"
(the source logs `FILE_SAVED`). -/
theorem happyPath_endToEnd (st : AppState) (r : Response) (env : Env)
    (hval : validateInput st.platform st.downloadType st.inputValue = none)
    (hok : r.ok = true) (hsize : 1024 ≤ r.blobSize) :
    (handleDownload st r env).trace.map DownloadState.status =
      [.processing, .processing, .downloading, .downloading, .complete] ∧
    (handleDownload st r env).final.downloadState.status = .complete ∧
    (handleDownload st r env).final.downloadState.progress = 100 ∧
    (handleDownload st r env).final.downloadState.filename =
      some (resolveFilename r.contentDisposition st.platform st.downloadType
        env.now) ∧
    ∃ l, (handleDownload st r env).final.consoleLines.getLast? = some l ∧
      mentions l "file_saved" = true := by
  have hlt : ¬ (r.blobSize < 1024) := Nat.not_lt.mpr hsize
  have hrun :
      handleDownload st r env =
        { final :=
            { st with
              downloadState :=
                { status := .complete, progress := 100,
                  message := "DOWNLOAD.COMPLETE",
                  filename := some (resolveFilename r.contentDisposition
                    st.platform st.downloadType env.now) }
              consoleLines :=
                addConsoleLine (env.clock 6)
                  ("> FILE_SAVED: " ++ resolveFilename r.contentDisposition
                    st.platform st.downloadType env.now)
                  (addConsoleLine (env.clock 5)
                    ("> DOWNLOAD_COMPLETE: " ++ mbText r.blobSize ++ " MB")
                    (addConsoleLine (env.clock 4)
                      ("> DOWNLOADING: " ++ resolveFilename r.contentDisposition
                        st.platform st.downloadType env.now)
                      (addConsoleLine (env.clock 3) "> CONNECTION_ESTABLISHED"
                        (addConsoleLine (env.clock 2)
                          "> CONNECTING TO API ENDPOINT..."
                          (addConsoleLine (env.clock 1)
                            ("> TARGET: " ++ truncEcho st.inputValue)
                            (addConsoleLine (env.clock 0)
                              ("> INIT " ++ st.platform.upper ++ " " ++
                                st.downloadType.upper ++ " PROTOCOL")
                              st.consoleLines)))))) },
          trace :=
            [{ status := .processing, progress := 0,
                message := "INITIALIZING_CONNECTION..." },
             { status := .processing, progress := 20,
                message := "ESTABLISHING_SECURE_CONNECTION..." },
             { status := .downloading, progress := 50,
                message := "EXTRACTING_MEDIA_STREAM..." },
             { status := .downloading, progress := 70,
                message := "STREAMING_DATA..." },
             { status := .complete, progress := 100,
                message := "DOWNLOAD.COMPLETE",
                filename := some (resolveFilename r.contentDisposition
                  st.platform st.downloadType env.now) }],
          toasts :=
            [⟨"DOWNLOAD.SUCCESS",
              resolveFilename r.contentDisposition st.platform st.downloadType
                env.now ++ " downloaded successfully"⟩] } := by
    unfold handleDownload
    rw [hval]
    simp [hok, hlt]
  rw [hrun]
  refine ⟨rfl, rfl, rfl, rfl, ?_⟩
  refine ⟨"[" ++ env.clock 6 ++ "] " ++
    ("> FILE_SAVED: " ++ resolveFilename r.contentDisposition st.platform
      st.downloadType env.now), ?_, ?_⟩
  · rw [addConsoleLine, List.getLast?_concat]
  · apply mentions_of_infix _ "> FILE_SAVED: "
    · refine ⟨("[" ++ env.clock 6 ++ "] ").data,
        (resolveFilename r.contentDisposition st.platform st.downloadType
          env.now).data, ?_⟩
      simp [String.data_append, List.append_assoc]
    · decide

/-- Closed witness for `happyPath_endToEnd`: a `youtube`/`video` submission
with a 2 MiB body and disposition `filename="clip.mp4"` ends complete at
progress 100 with filename `clip.mp4`, the last log line mentioning
"file_saved". -/
theorem happyPath_endToEnd_witness :
    (handleDownload ⟨.youtube, .video, "https://youtu.be/x", initDownloadState, []⟩
        ⟨true, 200, .notJson, some "attachment; filename=\"clip.mp4\"", 2097152⟩
        ⟨fun _ => "12:00:00", 17⟩).trace.map DownloadState.status =
      [.processing, .processing, .downloading, .downloading, .complete] ∧
    (handleDownload ⟨.youtube, .video, "https://youtu.be/x", initDownloadState, []⟩
        ⟨true, 200, .notJson, some "attachment; filename=\"clip.mp4\"", 2097152⟩
        ⟨fun _ => "12:00:00", 17⟩).final.downloadState.filename =
      some "clip.mp4" ∧
    (handleDownload ⟨.youtube, .video, "https://youtu.be/x", initDownloadState, []⟩
        ⟨true, 200, .notJson, some "attachment; filename=\"clip.mp4\"", 2097152⟩
        ⟨fun _ => "12:00:00", 17⟩).final.downloadState.progress = 100 ∧
    ∃ l, (handleDownload ⟨.youtube, .video, "https://youtu.be/x", initDownloadState, []⟩
        ⟨true, 200, .notJson, some "attachment; filename=\"clip.mp4\"", 2097152⟩
        ⟨fun _ => "12:00:00", 17⟩).final.consoleLines.getLast? = some l ∧
      mentions l "file_saved" = true := by
  have h := happyPath_endToEnd
    ⟨.youtube, .video, "https://youtu.be/x", initDownloadState, []⟩
    ⟨true, 200, .notJson, some "attachment; filename=\"clip.mp4\"", 2097152⟩
    ⟨fun _ => "12:00:00", 17⟩ (by decide) rfl (by decide)
  exact ⟨h.1, h.2.2.2.1.trans (by decide), h.2.2.1, h.2.2.2.2⟩

/-- C3: for every submission that passes validation and receives an ok
response whose fully consumed body is smaller than 1024 bytes, the final
state is `error` with `progress = 0` and the message referencing that the
downloaded file is too small — and this is independent of the disposition
header. -/
theorem smallPayload_error (st : AppState) (r : Response) (env : Env)
    (hval : validateInput st.platform st.downloadType st.inputValue = none)
    (hok : r.ok = true) (hsmall : r.blobSize < 1024) :
    (handleDownload st r env).final.downloadState =
      { status := .error, progress := 0,
        message := "ERROR: Downloaded file is too small - may be invalid" } ∧
    mentions "ERROR: Downloaded file is too small - may be invalid"
      "too small" = true ∧
    (∀ disp : Option String,
      (handleDownload st { r with contentDisposition := disp } env).final.downloadState =
        { status := .error, progress := 0,
          message := "ERROR: Downloaded file is too small - may be invalid" }) := by
  have key : ∀ q : Response, q.ok = true → q.blobSize < 1024 →
      (handleDownload st q env).final.downloadState =
        { status := .error, progress := 0,
          message := "ERROR: Downloaded file is too small - may be invalid" } := by
    intro q hqok hqsmall
    unfold handleDownload
    rw [hval]
    simp [hqok, hqsmall]
  exact ⟨key r hok hsmall, by decide,
    fun disp => key { r with contentDisposition := disp } hok hsmall⟩

/-- Closed witness for `smallPayload_error`: a 200 response with a 500-byte
body ends in the error state whether or not a disposition header is
present. -/
theorem smallPayload_error_witness :
    (handleDownload ⟨.tiktok, .audio, "https://tiktok.com/v", initDownloadState, []⟩
        ⟨true, 200, .notJson, none, 500⟩ ⟨fun _ => "12:00:00", 17⟩).final.downloadState =
      { status := .error, progress := 0,
        message := "ERROR: Downloaded file is too small - may be invalid" } ∧
    (handleDownload ⟨.tiktok, .audio, "https://tiktok.com/v", initDownloadState, []⟩
        ⟨true, 200, .notJson, some "attachment; filename=\"clip.mp4\"", 500⟩
        ⟨fun _ => "12:00:00", 17⟩).final.downloadState =
      { status := .error, progress := 0,
        message := "ERROR: Downloaded file is too small - may be invalid" } := by
  have h := smallPayload_error
    ⟨.tiktok, .audio, "https://tiktok.com/v", initDownloadState, []⟩
    ⟨true, 200, .notJson, none, 500⟩ ⟨fun _ => "12:00:00", 17⟩
    (by decide) rfl (by decide)
  exact ⟨h.1, h.2.2 (some "attachment; filename=\"clip.mp4\"")⟩

/-- C4 amended: for every submission that passes validation and receives a
non-ok response, the final state is `error` with `progress = 0`; the message
carries the body's `message` field when the body parsed as JSON with a
non-empty `message`; it is synthesized from the numeric status code when the
body failed to parse; and it is the generic `"Download failed"` when the
body parsed as JSON but its `message` field is absent or empty. -/
theorem errorResponse_message_amended (st : AppState) (r : Response) (env : Env)
    (hval : validateInput st.platform st.downloadType st.inputValue = none)
    (hnotok : r.ok = false) :
    (handleDownload st r env).final.downloadState.status = .error ∧
    (handleDownload st r env).final.downloadState.progress = 0 ∧
    (∀ s, r.errorBody = .json (some s) → s ≠ "" →
      (handleDownload st r env).final.downloadState.message = "ERROR: " ++ s) ∧
    (r.errorBody = .notJson →
      (handleDownload st r env).final.downloadState.message =
        "ERROR: " ++ ("Server error: " ++ Nat.repr r.status)) ∧
    ((r.errorBody = .json none ∨ r.errorBody = .json (some "")) →
      (handleDownload st r env).final.downloadState.message =
        "ERROR: Download failed") ∧
    (handleDownload st r env).trace.map DownloadState.status =
      [.processing, .processing, .error] := by
  have hrun :
      handleDownload st r env =
        { final :=
            { st with
              downloadState :=
                { status := .error, progress := 0,
                  message := "ERROR: " ++ jsErrorMessage r }
              consoleLines :=
                addConsoleLine (env.clock 3) ("> ERROR: " ++ jsErrorMessage r)
                  (addConsoleLine (env.clock 2) "> CONNECTING TO API ENDPOINT..."
                    (addConsoleLine (env.clock 1)
                      ("> TARGET: " ++ truncEcho st.inputValue)
                      (addConsoleLine (env.clock 0)
                        ("> INIT " ++ st.platform.upper ++ " " ++
                          st.downloadType.upper ++ " PROTOCOL")
                        st.consoleLines))) },
          trace :=
            [{ status := .processing, progress := 0,
                message := "INITIALIZING_CONNECTION..." },
             { status := .processing, progress := 20,
                message := "ESTABLISHING_SECURE_CONNECTION..." },
             { status := .error, progress := 0,
                message := "ERROR: " ++ jsErrorMessage r }],
          toasts :=
            [⟨"ERROR.DOWNLOAD_FAILED",
              if jsErrorMessage r = "" then "Failed to process download request"
              else jsErrorMessage r⟩] } := by
    unfold handleDownload
    rw [hval]
    simp [hnotok]
  rw [hrun]
  refine ⟨rfl, rfl, ?_, ?_, ?_, rfl⟩
  · intro s hs hne
    simp [jsErrorMessage, hs, hne]
  · intro hs
    simp [jsErrorMessage, hs]
  · rintro (hs | hs) <;> simp [jsErrorMessage, hs]

/-- C4 counterexample: a 500 response whose body parses as structured JSON
without a `message` field yields the generic message `"ERROR: Download
failed"`, which neither comes from a `message` field nor mentions the
numeric status code. -/
theorem errorResponse_message_counterexample :
    (handleDownload ⟨.youtube, .video, "https://youtu.be/x", initDownloadState, []⟩
        ⟨false, 500, .json none, none, 0⟩
        ⟨fun _ => "12:00:00", 17⟩).final.downloadState.message =
      "ERROR: Download failed" ∧
    strIncludes "ERROR: Download failed" "500" = false ∧
    (⟨false, 500, .json none, none, 0⟩ : Response).errorBody = .json none := by
  exact ⟨by decide, by decide, rfl⟩

/-- Closed witness for `errorResponse_message_amended`: status 500 with body
`{"message":"rate limited"}` ends in `error`, `progress = 0`, message
containing "rate limited". -/
theorem errorResponse_message_witness :
    (handleDownload ⟨.youtube, .video, "https://youtu.be/x", initDownloadState, []⟩
        ⟨false, 500, .json (some "rate limited"), none, 0⟩
        ⟨fun _ => "12:00:00", 17⟩).final.downloadState.status = .error ∧
    (handleDownload ⟨.youtube, .video, "https://youtu.be/x", initDownloadState, []⟩
        ⟨false, 500, .json (some "rate limited"), none, 0⟩
        ⟨fun _ => "12:00:00", 17⟩).final.downloadState.progress = 0 ∧
    (handleDownload ⟨.youtube, .video, "https://youtu.be/x", initDownloadState, []⟩
        ⟨false, 500, .json (some "rate limited"), none, 0⟩
        ⟨fun _ => "12:00:00", 17⟩).final.downloadState.message =
      "ERROR: " ++ "rate limited" ∧
    strIncludes "ERROR: rate limited" "rate limited" = true := by
  have h := errorResponse_message_amended
    ⟨.youtube, .video, "https://youtu.be/x", initDownloadState, []⟩
    ⟨false, 500, .json (some "rate limited"), none, 0⟩
    ⟨fun _ => "12:00:00", 17⟩ (by decide) rfl
  exact ⟨h.1, h.2.1, h.2.2.1 "rate limited" rfl (by decide), by decide⟩

/-- C5: every `DownloadState` the component ever installs — the initial
state, every state set during a submission, and the state installed by
reset — satisfies the invariant `idle ⇒ progress = 0`,
`complete ⇒ filename set`, `error ⇒ progress = 0`.  Each transition installs
a whole freshly-constructed `DownloadState` record (every `setDownloadState`
call site passes a complete object literal), which the embedding reflects by
recording complete records in the trace. -/
theorem downloadState_invariant :
    stateInv initDownloadState ∧
    (∀ st : AppState, stateInv (resetState st).downloadState) ∧
    (∀ (st : AppState) (r : Response) (env : Env) (s : DownloadState),
      s ∈ (handleDownload st r env).trace → stateInv s) := by
  refine ⟨by simp [stateInv, initDownloadState], ?_, ?_⟩
  · intro st
    simp [stateInv, resetState, initDownloadState]
  · intro st r env s hmem
    cases hv : validateInput st.platform st.downloadType st.inputValue with
    | some t =>
      unfold handleDownload at hmem
      rw [hv] at hmem
      simp at hmem
    | none =>
      unfold handleDownload at hmem
      rw [hv] at hmem
      by_cases hok : r.ok = false
      · simp only [hok, if_true, List.mem_cons, List.not_mem_nil, or_false,
          reduceIte] at hmem
        rcases hmem with rfl | rfl | rfl <;> simp [stateInv]
      · by_cases hsz : r.blobSize < 1024
        · simp [hok, hsz] at hmem
          rcases hmem with rfl | rfl | rfl | rfl | rfl <;> simp [stateInv]
        · simp [hok, hsz] at hmem
          rcases hmem with rfl | rfl | rfl | rfl | rfl <;> simp [stateInv]

/-- Closed witness for `downloadState_invariant`: the complete state of a
concrete successful run satisfies the invariant. -/
theorem downloadState_invariant_witness :
    stateInv ⟨.complete, 100, "DOWNLOAD.COMPLETE", none, some "clip.mp4"⟩ :=
  downloadState_invariant.2.2
    ⟨.youtube, .video, "https://youtu.be/x", initDownloadState, []⟩
    ⟨true, 200, .notJson, some "attachment; filename=\"clip.mp4\"", 2097152⟩
    ⟨fun _ => "12:00:00", 17⟩ _ (by decide)

/-- C10: the `downloadUrl` field is never set: it is `none` in the initial
state, in every state set during any submission (including the `complete`
state), and after reset. -/
theorem downloadUrl_never_set :
    initDownloadState.downloadUrl = none ∧
    (∀ st : AppState, (resetState st).downloadState.downloadUrl = none) ∧
    (∀ (st : AppState) (r : Response) (env : Env) (s : DownloadState),
      s ∈ (handleDownload st r env).trace → s.downloadUrl = none) := by
  refine ⟨rfl, fun st => rfl, ?_⟩
  intro st r env s hmem
  cases hv : validateInput st.platform st.downloadType st.inputValue with
  | some t =>
    unfold handleDownload at hmem
    rw [hv] at hmem
    simp at hmem
  | none =>
    unfold handleDownload at hmem
    rw [hv] at hmem
    by_cases hok : r.ok = false
    · simp only [hok, List.mem_cons, List.not_mem_nil, or_false,
        reduceIte, if_true] at hmem
      rcases hmem with rfl | rfl | rfl <;> rfl
    · by_cases hsz : r.blobSize < 1024
      · simp [hok, hsz] at hmem
        rcases hmem with rfl | rfl | rfl | rfl | rfl <;> rfl
      · simp [hok, hsz] at hmem
        rcases hmem with rfl | rfl | rfl | rfl | rfl <;> rfl

/-- Closed witness for `downloadUrl_never_set`: the complete state of a
concrete successful run carries no `downloadUrl`. -/
theorem downloadUrl_never_set_witness :
    (⟨.complete, 100, "DOWNLOAD.COMPLETE", none, some "clip.mp4"⟩ :
        DownloadState).downloadUrl = none :=
  downloadUrl_never_set.2.2
    ⟨.youtube, .video, "https://youtu.be/x", initDownloadState, []⟩
    ⟨true, 200, .notJson, some "attachment; filename=\"clip.mp4\"", 2097152⟩
    ⟨fun _ => "12:00:00", 17⟩ _ (by decide)
